import Mathlib

/-!
Verification of the Mangrove-Ai fan-out / normalization / deduplication
pipeline (src/utils.py and src/main.py) against its specification.

Modelling conventions:
* Python/JSON values are modelled by the inductive type `Json`; JSON numbers
  are modelled as integers (the claims under study never depend on
  fractional numerals, and the embedded parser simply fails on them, which
  only shifts an input between two branches that the claims treat alike).
* Python dicts are association lists `List (String × Json)` in insertion
  order: `lookupJ` is `d.get`, `setKey` is `d[k] = v` (replace in place if
  the key is present, append otherwise), mirroring CPython dict semantics.
* Each HTTP interaction with the upstream completion API is abstracted by
  an `HttpOutcome` oracle: either a response with status, decoded JSON body
  and raw text, or `exn` for any exception raised inside the
  `aiohttp` session block (connection errors, timeouts, body-decode
  failures, ...).
* Code that can raise an uncaught exception is embedded in
  `Except String`, the error string naming the Python exception; code whose
  exceptions are all caught locally stays pure, with the caught branch
  returning the documented fallback value.
-/

/-- JSON values as produced by Python's `json.loads` (numbers restricted to
integers, see the file header). Objects keep insertion order, like Python
dicts. -/
inductive Json where
  | null : Json
  | bool : Bool → Json
  | num : Int → Json
  | str : String → Json
  | arr : List Json → Json
  | obj : List (String × Json) → Json

/-- Python's `d.get(k)` on an insertion-ordered dict. -/
def lookupJ : List (String × Json) → String → Option Json
  | [], _ => none
  | (k, v) :: rest, key => if k = key then some v else lookupJ rest key

/-- Python's `d[k] = v`: replace the value in place when the key is
present, append the pair at the end otherwise. -/
def setKey : List (String × Json) → String → Json → List (String × Json)
  | [], k, v => [(k, v)]
  | (k0, v0) :: rest, k, v =>
    if k0 = k then (k, v) :: rest else (k0, v0) :: setKey rest k v

/-- The keys of a dict, in insertion order. -/
def keysOf (fs : List (String × Json)) : List String := fs.map Prod.fst

/-- Python truthiness (`bool(x)`) on JSON values. -/
def Json.truthy : Json → Bool
  | .null => false
  | .bool b => b
  | .num n => n != 0
  | .str s => !s.toList.isEmpty
  | .arr xs => !xs.isEmpty
  | .obj fs => !fs.isEmpty

/-- Python's `isinstance(x, dict)`. -/
def Json.isObj : Json → Bool
  | .obj _ => true
  | _ => false

/-- Python `str.find(ch)`: index of the first occurrence, `-1` if absent. -/
def pyFind (s : List Char) (c : Char) : Int :=
  match s with
  | [] => -1
  | a :: rest =>
    if a = c then 0
    else
      let r := pyFind rest c
      if r = -1 then -1 else r + 1

/-- Python `str.rfind(ch)`: index of the last occurrence, `-1` if absent. -/
def pyRFind (s : List Char) (c : Char) : Int :=
  match s with
  | [] => -1
  | a :: rest =>
    let r := pyRFind rest c
    if r = -1 then (if a = c then 0 else -1) else r + 1

/-- Python slice `s[a:b]` for non-negative bounds (the only use sites pass
indices produced by `find`/`rfind + 1`, which are checked or always
non-negative). Clamping semantics: an empty slice when `b ≤ a`. -/
def pySlice (s : List Char) (a b : Nat) : List Char :=
  (s.drop a).take (b - a)

/-- JSON insignificant whitespace, as accepted by Python's `json` module. -/
def skipWs : List Char → List Char
  | [] => []
  | c :: rest =>
    if c = ' ' ∨ c = '\t' ∨ c = '\n' ∨ c = '\r' then skipWs rest else c :: rest

/-- Body of a JSON string literal after the opening quote; the accumulator
holds the decoded characters in reverse. Supported escapes are the
single-character ones; `\\u` escapes make the parse fail in this model.
Raw control characters are rejected, as in Python's strict mode. -/
def parseStringLit : List Char → List Char → Option (String × List Char)
  | [], _ => none
  | c :: rest, acc =>
    if c = '\"' then some (⟨acc.reverse⟩, rest)
    else if c = '\\' then
      match rest with
      | [] => none
      | e :: rest2 =>
        if e = '\"' then parseStringLit rest2 ('\"' :: acc)
        else if e = '\\' then parseStringLit rest2 ('\\' :: acc)
        else if e = '/' then parseStringLit rest2 ('/' :: acc)
        else if e = 'n' then parseStringLit rest2 ('\n' :: acc)
        else if e = 't' then parseStringLit rest2 ('\t' :: acc)
        else if e = 'r' then parseStringLit rest2 ('\r' :: acc)
        else if e = 'b' then parseStringLit rest2 ('\x08' :: acc)
        else if e = 'f' then parseStringLit rest2 ('\x0c' :: acc)
        else none
    else if c.toNat < 32 then none
    else parseStringLit rest (c :: acc)

/-- Longest digit run at the head of the input. -/
def takeDigits : List Char → (List Char × List Char)
  | [] => ([], [])
  | c :: rest =>
    if c.isDigit then
      let (ds, rem) := takeDigits rest
      (c :: ds, rem)
    else ([], c :: rest)

/-- Decimal value of a digit run, with accumulator. -/
def digitsToNat (acc : Nat) : List Char → Nat
  | [] => acc
  | c :: rest => digitsToNat (acc * 10 + (c.toNat - 48)) rest

/-- JSON integer grammar: `0`, or a nonzero leading digit followed by more
digits (a leading `0` stops immediately, so `01` leaves trailing input and
fails at the caller, as in Python). -/
def parseNatDigits (s : List Char) : Option (Nat × List Char) :=
  match s with
  | [] => none
  | c :: rest =>
    if c = '0' then some (0, rest)
    else if c.isDigit then
      let (ds, rem) := takeDigits rest
      some (digitsToNat (c.toNat - 48) ds, rem)
    else none

/-- A JSON number (integer part only in this model; a following `.` or
exponent is left in the input and makes the surrounding parse fail). -/
def parseNum (s : List Char) : Option (Json × List Char) :=
  match s with
  | '-' :: rest =>
    match parseNatDigits rest with
    | some (n, rem) => some (.num (-(n : Int)), rem)
    | none => none
  | _ =>
    match parseNatDigits s with
    | some (n, rem) => some (.num (n : Int), rem)
    | none => none

mutual

/-- One JSON value at the head of the input (whitespace already skipped).
The fuel argument bounds recursion depth; `json_loads` supplies enough for
any input of the given length. -/
def parseVal : Nat → List Char → Option (Json × List Char)
  | 0, _ => none
  | _ + 1, [] => none
  | fuel + 1, c :: rest =>
    if c = '\x7b' then
      match skipWs rest with
      | '\x7d' :: rem => some (.obj [], rem)
      | s => parseObjBody fuel s []
    else if c = '[' then
      match skipWs rest with
      | ']' :: rem => some (.arr [], rem)
      | s => parseArrBody fuel s []
    else if c = '\"' then
      match parseStringLit rest [] with
      | some (s, rem) => some (.str s, rem)
      | none => none
    else if c = 't' then
      match rest with
      | 'r' :: 'u' :: 'e' :: rem => some (.bool true, rem)
      | _ => none
    else if c = 'f' then
      match rest with
      | 'a' :: 'l' :: 's' :: 'e' :: rem => some (.bool false, rem)
      | _ => none
    else if c = 'n' then
      match rest with
      | 'u' :: 'l' :: 'l' :: rem => some (.null, rem)
      | _ => none
    else if c = '-' ∨ c.isDigit then parseNum (c :: rest)
    else none

/-- Comma-separated array elements up to the closing bracket; the
accumulator holds the elements parsed so far. -/
def parseArrBody : Nat → List Char → List Json → Option (Json × List Char)
  | 0, _, _ => none
  | fuel + 1, s, acc =>
    match parseVal fuel (skipWs s) with
    | none => none
    | some (v, rem) =>
      match skipWs rem with
      | ',' :: rem2 => parseArrBody fuel rem2 (acc ++ [v])
      | ']' :: rem2 => some (.arr (acc ++ [v]), rem2)
      | _ => none

/-- Comma-separated object members up to the closing brace. Duplicate keys
follow CPython dict semantics (`setKey`): the last value wins, the first
position is kept. -/
def parseObjBody : Nat → List Char → List (String × Json) →
    Option (Json × List Char)
  | 0, _, _ => none
  | fuel + 1, s, acc =>
    match skipWs s with
    | '\"' :: rest =>
      match parseStringLit rest [] with
      | none => none
      | some (k, rem) =>
        match skipWs rem with
        | ':' :: rem2 =>
          match parseVal fuel (skipWs rem2) with
          | none => none
          | some (v, rem3) =>
            match skipWs rem3 with
            | ',' :: rem4 => parseObjBody fuel rem4 (setKey acc k v)
            | '\x7d' :: rem4 => some (.obj (setKey acc k v), rem4)
            | _ => none
        | _ => none
    | _ => none

end

/-- Python's `json.loads` on a character list: one JSON value surrounded by
optional whitespace, nothing else. Returns `none` where Python raises
`json.JSONDecodeError`. -/
def json_loads (s : List Char) : Option Json :=
  match parseVal (2 * s.length + 8) (skipWs s) with
  | some (v, rem) => if (skipWs rem).isEmpty then some v else none
  | none => none

example : json_loads "[1, 2]".toList = some (.arr [.num 1, .num 2]) := rfl
example : json_loads "\x7b\"a\": null\x7d".toList =
    some (.obj [("a", .null)]) := rfl
example : json_loads "Sorry, I cannot help.".toList = none := rfl
example : json_loads "".toList = none := rfl
example : json_loads " [true, false, \"x\"] ".toList =
    some (.arr [.bool true, .bool false, .str "x"]) := rfl
example : json_loads "[-12]".toList = some (.arr [.num (-12)]) := rfl

/-- Outcome of one HTTP POST to the completion API, as observed by the code:
a response carrying the HTTP status, the decoded JSON body
(`await response.json()`) and the raw text (`await response.text()`), or
`exn` for any exception raised inside the `aiohttp` session block
(connection/DNS/timeout errors, body-decode failures, ...). -/
inductive HttpOutcome where
  | resp (status : Nat) (body : Json) (text : String) : HttpOutcome
  | exn (msg : String) : HttpOutcome

/-- The navigation
`result.get('choices', [{}])[0].get('message', {}).get('content', '')`
shared by `extract_info_from_question` and
`deduplicate_certifications_with_llm` (src/utils.py lines 69 and 228).
Returns `some` content string on the paths where Python produces a string;
`none` on every path where Python raises (the callers catch every exception
and fall back). Missing keys take the Python defaults: `choices` defaults
to `[{}]`, `message` to `{}`, `content` to `''`. -/
def navContentStr (result : Json) : Option String :=
  match result with
  | .obj fields =>
    match (lookupJ fields "choices").getD (.arr [.obj []]) with
    | .arr (c :: _) =>
      match c with
      | .obj cf =>
        match (lookupJ cf "message").getD (.obj []) with
        | .obj mf =>
          match (lookupJ mf "content").getD (.str "") with
          | .str s => some s
          | _ => none
        | _ => none
      | _ => none
    | _ => none
  | _ => none

/-- The empty extraction triple returned by every fallback branch of
`extract_info_from_question`. -/
def emptyTriple : List (String × Json) :=
  [("product", .str ""), ("origin", .str ""), ("destination", .str "")]

/-- Model of `extract_info_from_question` (src/utils.py lines 20-96), with the HTTP
interaction abstracted by an `HttpOutcome`. On a 200 response it navigates
to the message content, locates the span from the first `\x7b` to the last
`\x7d`, parses it as JSON, and reads the three keys with empty-string
defaults; every failure path (non-200, exception, no opening brace, parse
failure, parsed value not a dict — the latter raises `AttributeError` in
Python, caught by the outer handler) returns `emptyTriple`. Note the
Python guard `json_end != -1` is vacuous since `json_end = rfind + 1 ≥ 0`;
a missing closing brace surfaces as an empty slice that fails to parse. -/
def extract_info_from_question (o : HttpOutcome) : List (String × Json) :=
  match o with
  | .exn _ => emptyTriple
  | .resp status body _ =>
    if status = 200 then
      match navContentStr body with
      | none => emptyTriple
      | some content =>
        let cs := content.toList
        let js := pyFind cs '\x7b'
        let je := pyRFind cs '\x7d' + 1
        if js ≠ -1 ∧ je ≠ -1 then
          match json_loads (pySlice cs js.toNat je.toNat) with
          | some (.obj fields) =>
            [("product", (lookupJ fields "product").getD (.str "")),
             ("origin", (lookupJ fields "origin").getD (.str "")),
             ("destination", (lookupJ fields "destination").getD (.str ""))]
          | some _ => emptyTriple
          | none => emptyTriple
        else emptyTriple
    else emptyTriple

/-- The successful-parse path of `extract_info_from_question`, isolated:
`some` triple exactly when the status is 200, the content navigation
yields a string, an opening brace is found, and the brace span decodes to
a JSON object; `none` in every other case. -/
def extractSuccess (o : HttpOutcome) : Option (List (String × Json)) :=
  match o with
  | .exn _ => none
  | .resp status body _ =>
    if status = 200 then
      match navContentStr body with
      | none => none
      | some content =>
        let cs := content.toList
        let js := pyFind cs '\x7b'
        let je := pyRFind cs '\x7d' + 1
        if js ≠ -1 ∧ je ≠ -1 then
          match json_loads (pySlice cs js.toNat je.toNat) with
          | some (.obj fields) =>
            some
              [("product", (lookupJ fields "product").getD (.str "")),
               ("origin", (lookupJ fields "origin").getD (.str "")),
               ("destination", (lookupJ fields "destination").getD (.str ""))]
          | some _ => none
          | none => none
        else none
    else none

/-- Model of `query_perplexity` (src/utils.py lines 98-173), with the HTTP
interaction abstracted by an `HttpOutcome`. Returns the Python dict of the
corresponding branch: the success dict `\x7bdomain, product, origin,
destination, response\x7d` on status 200, the failure dict with `error` and
`details` on non-200, and the transport-failure dict on an exception. The
product/origin/destination arguments are `Json` because the caller feeds
them unchecked from the extraction result. -/
def query_perplexity (domain : String) (product origin destination : Json)
    (o : HttpOutcome) : List (String × Json) :=
  match o with
  | .resp status body text =>
    if status = 200 then
      [("domain", .str domain), ("product", product), ("origin", origin),
       ("destination", destination), ("response", body)]
    else
      [("domain", .str domain), ("product", product), ("origin", origin),
       ("destination", destination),
       ("error", .str ("API request failed with status " ++ toString status)),
       ("details", .str text)]
  | .exn msg =>
    [("domain", .str domain), ("product", product), ("origin", origin),
     ("destination", destination),
     ("error", .str "Request failed"), ("details", .str msg)]

/-- Model of `process_domains` (src/utils.py lines 175-190). The user question only
shapes the prompt text, which the outcome oracle abstracts; the extraction
call's outcome is `extractO` and the per-domain query outcomes are given by
the oracle `env`. `asyncio.gather(*tasks)` returns the results in argument
order, so the fan-out is a `List.map` over the domain list. The
warning log on missing fields has no semantic effect and is omitted. -/
def process_domains (domains : List String) (extractO : HttpOutcome)
    (env : String → HttpOutcome) : List (List (String × Json)) :=
  let info := extract_info_from_question extractO
  let product := (lookupJ info "product").getD (.str "")
  let origin := (lookupJ info "origin").getD (.str "")
  let destination := (lookupJ info "destination").getD (.str "")
  domains.map (fun d => query_perplexity d product origin destination (env d))

/-- Model of `deduplicate_certifications_with_llm` (src/utils.py lines 192-256),
with the HTTP interaction abstracted by an `HttpOutcome` (the serialized
certification list only shapes the prompt). On a 200 response it navigates
to the message content, takes the span from the first `[` to the last `]`,
and returns the decode only when it is a JSON list; every other path
returns the input `certifications` unchanged. -/
def deduplicate_certifications_with_llm (certifications : List Json)
    (o : HttpOutcome) : List Json :=
  match o with
  | .exn _ => certifications
  | .resp status body _ =>
    if status = 200 then
      match navContentStr body with
      | none => certifications
      | some content =>
        let cs := content.toList
        let js := pyFind cs '['
        let je := pyRFind cs ']' + 1
        if js ≠ -1 ∧ je ≠ -1 then
          match json_loads (pySlice cs js.toNat je.toNat) with
          | some (.arr xs) => xs
          | some _ => certifications
          | none => certifications
        else certifications
    else certifications

/-- The successful-parse path of `deduplicate_certifications_with_llm`,
isolated: `some` list exactly when the status is 200, the content
navigation yields a string, a `[` is found, and the bracket span decodes
to a JSON list; `none` in every other case. -/
def dedupParsedReply (o : HttpOutcome) : Option (List Json) :=
  match o with
  | .exn _ => none
  | .resp status body _ =>
    if status = 200 then
      match navContentStr body with
      | none => none
      | some content =>
        let cs := content.toList
        let js := pyFind cs '['
        let je := pyRFind cs ']' + 1
        if js ≠ -1 ∧ je ≠ -1 then
          match json_loads (pySlice cs js.toNat je.toNat) with
          | some (.arr xs) => some xs
          | some _ => none
          | none => none
        else none
    else none

/-- The navigation
`entry.get("response", \x7b\x7d).get("choices", [\x7b\x7d])[0].get("message", \x7b\x7d).get("content")`
of `reformat_results` (src/main.py lines 37-42), on the fields of one
entry. Unlike `navContentStr` the final default is `None` and the raw value
is returned, because `reformat_results` checks truthiness itself; and any
step that raises in Python propagates out of `reformat_results`
uncaught, so it is tracked as an `Except.error` naming the exception. -/
def navContentR (fields : List (String × Json)) : Except String Json :=
  match (lookupJ fields "response").getD (.obj []) with
  | .obj rf =>
    match (lookupJ rf "choices").getD (.arr [.obj []]) with
    | .arr (c :: _) =>
      match c with
      | .obj cf =>
        match (lookupJ cf "message").getD (.obj []) with
        | .obj mf => .ok ((lookupJ mf "content").getD .null)
        | _ => .error "AttributeError: message value is not a dict"
      | _ => .error "AttributeError: choices[0] is not a dict"
    | _ => .error "indexing error: choices value is not a nonempty list"
  | _ => .error "AttributeError: response value is not a dict"

/-- The per-certification loop body of `reformat_results` (src/main.py
lines 48-50): `cert['domain'] = domain` then append, in order. Raises
`TypeError` (uncaught in Python) when an element of the parsed list is not
a dict. -/
def tagAll (certs : List Json) (domain : Json) : Except String (List Json) :=
  match certs with
  | [] => .ok []
  | .obj cf :: rest =>
    match tagAll rest domain with
    | .error msg => .error msg
    | .ok others => .ok (.obj (setKey cf "domain" domain) :: others)
  | _ :: _ => .error "TypeError: cert does not support item assignment"

/-- One iteration of the entry loop of `reformat_results` (src/main.py
lines 35-58): the certification records contributed by one entry, or the
uncaught Python exception. Only `json.JSONDecodeError` is caught (line 55),
so `json.loads` applied to a truthy non-string content raises `TypeError`,
as does tagging a non-dict list element; a falsy content (absent, `None`,
`''`, ...) falls through to the `elif "error" in entry` branch, which only
logs. -/
def processEntry (entry : Json) : Except String (List Json) :=
  match entry with
  | .obj fields =>
    let domain := (lookupJ fields "domain").getD .null
    match navContentR fields with
    | .error msg => .error msg
    | .ok content =>
      if content.truthy then
        match content with
        | .str s =>
          match json_loads s.toList with
          | some (.arr certs) => tagAll certs domain
          | some _ => .ok []
          | none => .ok []
        | _ => .error "TypeError: json.loads argument is not a string"
      else .ok []
  | _ => .error "AttributeError: entry is not a dict"

/-- Model of `reformat_results` (src/main.py lines 31-60). The call site always
passes `\x7b"results": results\x7d` with `results` the list returned by
`process_domains`, so the model takes the entry list directly. The
combined list is built entry by entry; an exception raised mid-loop
discards the partial list and propagates, hence the `Except`. -/
def reformat_results (results : List Json) : Except String (List Json) :=
  match results with
  | [] => .ok []
  | e :: rest =>
    match processEntry e with
    | .error msg => .error msg
    | .ok certs =>
      match reformat_results rest with
      | .error msg => .error msg
      | .ok more => .ok (certs ++ more)

/-- Tagging one record with its source domain, the total function used to
describe the output of `reformat_results` on well-shaped entries. -/
def tagDomain (domain : Json) : Json → Json
  | .obj cf => .obj (setKey cf "domain" domain)
  | c => c

/-- Shape conditions on one entry under which the `reformat_results` loop
body cannot raise: the entry is a dict, the response navigation reaches
the content without raising, a truthy content is a string, and a content
that parses to a JSON list contains only dicts. -/
def entryOk (entry : Json) : Bool :=
  match entry with
  | .obj fields =>
    match navContentR fields with
    | .error _ => false
    | .ok content =>
      if content.truthy then
        match content with
        | .str s =>
          match json_loads s.toList with
          | some (.arr certs) => certs.all Json.isObj
          | _ => true
        | _ => false
      else true
  | _ => false

/-- Modelled from the spec (section 4.4, Response Normalizer): the records
one entry contributes. For a result whose extracted first message content
is a string that parses to a JSON list, each element becomes a record
tagged with the source domain, in encounter order; an `error` object, any
other parse result, a parse failure, and every failure entry contribute
nothing. Used to state that the code refines the spec on well-shaped
entries. -/
def specEntryRecords (entry : Json) : List Json :=
  match entry with
  | .obj fields =>
    match navContentR fields with
    | .ok (.str s) =>
      match json_loads s.toList with
      | some (.arr certs) =>
        certs.map (tagDomain ((lookupJ fields "domain").getD .null))
      | _ => []
    | _ => []
  | _ => []

example :
    processEntry (.obj [("domain", .str "eur-lex.europa.eu"),
      ("response", .obj [("choices", .arr [.obj [("message", .obj
        [("content", .str "[\x7b\"certificate_name\":\"CE\"\x7d]")])]])])]) =
    .ok [.obj [("certificate_name", .str "CE"),
      ("domain", .str "eur-lex.europa.eu")]] := rfl

example :
    processEntry (.obj [("domain", .str "a.com"),
      ("response", .obj [("choices", .arr [.obj [("message", .obj
        [("content", .str "\x7b\"error\":\"no data\"\x7d")])]])])]) =
    .ok [] := rfl

example :
    processEntry (.obj [("domain", .str "a.com"),
      ("response", .obj [("choices", .arr [.obj [("message", .obj
        [("content", .str "Sorry, I cannot help.")])]])])]) =
    .ok [] := rfl

example :
    processEntry (.obj [("domain", .str "b.com"),
      ("error", .str "Request failed"), ("details", .str "boom")]) =
    .ok [] := rfl

example :
    (processEntry (.obj [("domain", .str "a.com"),
      ("response", .obj [("choices", .arr [.obj [("message", .obj
        [("content", .str "[1]")])]])])])) =
    .error "TypeError: cert does not support item assignment" := rfl

example :
    (processEntry (.obj [("domain", .str "a.com"),
      ("response", .obj [("choices", .arr [.obj [("message", .obj
        [("content", .num 7)])]])])])) =
    .error "TypeError: json.loads argument is not a string" := rfl

theorem lookupJ_query_domain (d : String) (p o dst : Json) (oc : HttpOutcome) :
    lookupJ (query_perplexity d p o dst oc) "domain" = some (.str d) := by
  cases oc with
  | exn m => rfl
  | resp s b t =>
    unfold query_perplexity
    by_cases h : s = 200 <;> simp [h, lookupJ]

theorem tagAll_eq_map (certs : List Json) (d : Json)
    (h : certs.all Json.isObj = true) :
    tagAll certs d = .ok (certs.map (tagDomain d)) := by
  induction certs with
  | nil => rfl
  | cons c rest ih =>
    simp only [List.all_cons, Bool.and_eq_true] at h
    obtain ⟨h1, h2⟩ := h
    cases c with
    | obj cf => simp [tagAll, ih h2, tagDomain]
    | null => simp [Json.isObj] at h1
    | bool b => simp [Json.isObj] at h1
    | num n => simp [Json.isObj] at h1
    | str s => simp [Json.isObj] at h1
    | arr xs => simp [Json.isObj] at h1

theorem json_loads_nil : json_loads [] = none := rfl

theorem processEntry_of_entryOk (e : Json) (h : entryOk e = true) :
    processEntry e = .ok (specEntryRecords e) := by
  cases e with
  | obj fields =>
    simp only [entryOk] at h
    simp only [processEntry, specEntryRecords]
    cases hnav : navContentR fields with
    | error msg => rw [hnav] at h; exact absurd h (by simp)
    | ok content =>
      rw [hnav] at h
      cases content with
      | str s =>
        obtain ⟨data⟩ := s
        cases data with
        | nil => rfl
        | cons a l =>
          have h' : (match json_loads (String.toList ⟨a :: l⟩) with
              | some (.arr certs) => certs.all Json.isObj
              | _ => true) = true := h
          show (match json_loads (String.toList ⟨a :: l⟩) with
              | some (.arr certs) =>
                tagAll certs ((lookupJ fields "domain").getD .null)
              | some _ => .ok []
              | none => .ok []) =
            .ok (match json_loads (String.toList ⟨a :: l⟩) with
              | some (.arr certs) =>
                certs.map (tagDomain ((lookupJ fields "domain").getD .null))
              | _ => [])
          cases hp : json_loads (String.toList ⟨a :: l⟩) with
          | none => rfl
          | some v =>
            rw [hp] at h'
            cases v with
            | arr certs => exact tagAll_eq_map certs _ h'
            | null => rfl
            | bool b => rfl
            | num n => rfl
            | str t => rfl
            | obj fs => rfl
      | null => rfl
      | bool b =>
        cases b with
        | false => rfl
        | true =>
          have h' : false = true := h
          exact absurd h' (by simp)
      | num n =>
        by_cases hn : n = 0
        · subst hn; rfl
        · have hb : (n != 0) = true := by simp [hn]
          have h' : (if (n != 0) = true then false else true) = true := h
          rw [hb] at h'
          simp at h'
      | arr xs =>
        cases xs with
        | nil => rfl
        | cons y ys =>
          have h' : false = true := h
          exact absurd h' (by simp)
      | obj fs =>
        cases fs with
        | nil => rfl
        | cons y ys =>
          have h' : false = true := h
          exact absurd h' (by simp)
  | null => simp [entryOk] at h
  | bool b => simp [entryOk] at h
  | num n => simp [entryOk] at h
  | str s => simp [entryOk] at h
  | arr xs => simp [entryOk] at h

theorem reformat_results_ok_of_entryOk (results : List Json)
    (h : results.all entryOk = true) :
    reformat_results results = .ok ((results.map specEntryRecords).flatten) := by
  induction results with
  | nil => rfl
  | cons e rest ih =>
    simp only [List.all_cons, Bool.and_eq_true] at h
    rw [reformat_results, processEntry_of_entryOk e h.1, ih h.2]
    simp [List.flatten]

theorem lookupJ_setKey_self (fs : List (String × Json)) (k : String) (v : Json) :
    lookupJ (setKey fs k v) k = some v := by
  induction fs with
  | nil => simp [setKey, lookupJ]
  | cons p rest ih =>
    obtain ⟨k0, v0⟩ := p
    by_cases h : k0 = k
    · simp [setKey, h, lookupJ]
    · simp [setKey, h, lookupJ, ih]

theorem lookupJ_setKey_other (fs : List (String × Json)) (k k' : String)
    (v : Json) (h : k' ≠ k) : lookupJ (setKey fs k v) k' = lookupJ fs k' := by
  have h' : ¬(k = k') := Ne.symm h
  induction fs with
  | nil => simp [setKey, lookupJ, h']
  | cons p rest ih =>
    obtain ⟨k0, v0⟩ := p
    by_cases h0 : k0 = k
    · subst h0
      simp [setKey, lookupJ, h']
    · by_cases h1 : k0 = k'
      · simp [setKey, h0, lookupJ, h1, h]
      · simp [setKey, h0, lookupJ, h1, ih]

theorem keysOf_setKey (fs : List (String × Json)) (k : String) (v : Json) :
    keysOf (setKey fs k v) =
      if (lookupJ fs k).isSome then keysOf fs else keysOf fs ++ [k] := by
  induction fs with
  | nil => simp [setKey, keysOf, lookupJ]
  | cons p rest ih =>
    obtain ⟨k0, v0⟩ := p
    by_cases h : k0 = k
    · simp [setKey, h, keysOf, lookupJ]
    · simp only [setKey, if_neg h, keysOf, List.map_cons, lookupJ]
      by_cases h2 : (lookupJ rest k).isSome
      · rw [if_pos h2]
        have hi := ih
        rw [if_pos h2] at hi
        simp only [keysOf] at hi
        rw [hi]
      · rw [if_neg h2]
        have hi := ih
        rw [if_neg h2] at hi
        simp only [keysOf] at hi
        rw [hi]
        simp

/-- C1: for every non-empty list of input domains, `process_domains`
returns exactly one `DomainQueryResult` per input domain: the output
length equals the number of domains, and the i-th result carries the i-th
requested domain in its `domain` field, regardless of how many of the
per-domain queries succeed or fail (the per-domain outcomes `env` are
arbitrary). -/
theorem C1_one_result_per_domain (domains : List String)
    (extractO : HttpOutcome) (env : String → HttpOutcome)
    (_hne : domains ≠ []) :
    (process_domains domains extractO env).length = domains.length ∧
    ∀ (i : Nat) (dom : String), domains[i]? = some dom →
      ∃ r, (process_domains domains extractO env)[i]? = some r ∧
        lookupJ r "domain" = some (.str dom) := by
  constructor
  · simp [process_domains]
  · intro i dom hdom
    simp only [process_domains, List.getElem?_map, hdom, Option.map_some']
    exact ⟨_, rfl, lookupJ_query_domain dom _ _ _ _⟩

theorem C1_one_result_per_domain_witness :
    (process_domains ["a.com", "b.com"] (.exn "down")
      (fun _ => .exn "down")).length = 2 :=
  (C1_one_result_per_domain ["a.com", "b.com"] (.exn "down")
    (fun _ => .exn "down") (List.cons_ne_nil _ _)).1

/-- C5: `query_perplexity` returns exactly one of two shapes: on HTTP 200 a
success dict carrying the full raw API response and no `error` field; on
non-200 a failure dict carrying the HTTP status in its `error` message and
the response body in `details`; on any exception a failure dict with the
transport-error message `Request failed`; and for every outcome the result
never contains both a `response` and an `error` field (it contains
`response` exactly when it lacks `error`). -/
theorem C5_success_or_failure_shape (d : String) (p orig dst : Json) :
    (∀ b t, query_perplexity d p orig dst (.resp 200 b t) =
      [("domain", .str d), ("product", p), ("origin", orig),
       ("destination", dst), ("response", b)]) ∧
    (∀ s b t, s ≠ 200 → query_perplexity d p orig dst (.resp s b t) =
      [("domain", .str d), ("product", p), ("origin", orig),
       ("destination", dst),
       ("error", .str ("API request failed with status " ++ toString s)),
       ("details", .str t)]) ∧
    (∀ m, query_perplexity d p orig dst (.exn m) =
      [("domain", .str d), ("product", p), ("origin", orig),
       ("destination", dst),
       ("error", .str "Request failed"), ("details", .str m)]) ∧
    (∀ o, (lookupJ (query_perplexity d p orig dst o) "response").isSome = true ↔
      (lookupJ (query_perplexity d p orig dst o) "error").isSome = false) := by
  refine ⟨?_, ?_, ?_, ?_⟩
  · intro b t
    simp [query_perplexity]
  · intro s b t hs
    simp [query_perplexity, hs]
  · intro m
    rfl
  · intro o
    cases o with
    | exn m => simp [query_perplexity, lookupJ]
    | resp s b t =>
      by_cases hs : s = 200 <;> simp [query_perplexity, hs, lookupJ]

theorem C5_success_or_failure_shape_witness :
    query_perplexity "a.com" (.str "p") (.str "fr") (.str "de")
        (.resp 500 (.obj []) "Internal Server Error") =
      [("domain", .str "a.com"), ("product", .str "p"),
       ("origin", .str "fr"), ("destination", .str "de"),
       ("error", .str "API request failed with status 500"),
       ("details", .str "Internal Server Error")] :=
  (C5_success_or_failure_shape "a.com" (.str "p") (.str "fr")
    (.str "de")).2.1 500 (.obj []) "Internal Server Error" (by decide)

/-- C8: the outcome produced for one domain depends only on that domain's
own upstream response: for two oracles that agree on every domain other
than `d`, the coordinator still returns one result per domain in both
runs, and the result at every position holding a domain other than `d` is
identical. -/
theorem C8_per_domain_isolation (domains : List String)
    (extractO : HttpOutcome) (env1 env2 : String → HttpOutcome) (d : String)
    (hagree : ∀ e, e ≠ d → env1 e = env2 e) :
    (process_domains domains extractO env1).length = domains.length ∧
    (process_domains domains extractO env2).length = domains.length ∧
    ∀ (i : Nat) (dom : String), domains[i]? = some dom → dom ≠ d →
      (process_domains domains extractO env1)[i]? =
        (process_domains domains extractO env2)[i]? := by
  refine ⟨by simp [process_domains], by simp [process_domains], ?_⟩
  intro i dom hdom hne
  simp only [process_domains, List.getElem?_map, hdom, Option.map_some',
    hagree dom hne]

/-- A batch oracle in which only `b.com` fails (HTTP 500). -/
def envOnlyBFails : String → HttpOutcome := fun e =>
  if e = "b.com" then .resp 500 (.obj []) "Internal Server Error"
  else .resp 200 (.obj []) ""

/-- A batch oracle in which every domain succeeds. -/
def envAllSucceed : String → HttpOutcome := fun _ => .resp 200 (.obj []) ""

theorem C8_per_domain_isolation_witness :
    (process_domains ["a.com", "b.com"] (.exn "down") envOnlyBFails)[0]? =
      (process_domains ["a.com", "b.com"] (.exn "down") envAllSucceed)[0]? :=
  (C8_per_domain_isolation ["a.com", "b.com"] (.exn "down") envOnlyBFails
      envAllSucceed "b.com"
      (fun e he => by simp [envOnlyBFails, envAllSucceed, he])).2.2
    0 "a.com" rfl (by decide)

/-- C9: the sequence returned by `process_domains` preserves input order:
the i-th element of the returned sequence is the `query_perplexity` result
for the i-th input domain under that domain's own outcome
(`asyncio.gather` returns results in argument order). -/
theorem C9_preserves_input_order (domains : List String)
    (extractO : HttpOutcome) (env : String → HttpOutcome) (i : Nat)
    (dom : String) (hdom : domains[i]? = some dom) :
    (process_domains domains extractO env)[i]? =
      some (query_perplexity dom
        ((lookupJ (extract_info_from_question extractO) "product").getD
          (.str ""))
        ((lookupJ (extract_info_from_question extractO) "origin").getD
          (.str ""))
        ((lookupJ (extract_info_from_question extractO) "destination").getD
          (.str ""))
        (env dom)) := by
  simp only [process_domains, List.getElem?_map, hdom, Option.map_some']

/-- C2: `deduplicate_certifications_with_llm` is fail-open: it returns the
parsed model reply exactly when the HTTP status is 200, the content
navigation yields a string, a bracket span is located, and the span
decodes to a JSON list (`dedupParsedReply`); in every other case — non-200
status, transport exception, no bracket span, decode failure, or a decode
that is not a list — it returns the original input sequence unchanged. -/
theorem C2_dedup_fail_open (certifications : List Json) (o : HttpOutcome) :
    deduplicate_certifications_with_llm certifications o =
      (dedupParsedReply o).getD certifications := by
  simp only [deduplicate_certifications_with_llm, dedupParsedReply]
  repeat' (first | rfl | split)

/-- C6: `extract_info_from_question` returns the triple with all three
fields empty in every failure case — transport exception, non-200 status,
content navigation failure, no brace span, JSON parse failure, or a parse
result that is not an object — and otherwise returns the parsed triple in
which any key missing from the parsed object defaults to the empty string
(`extractSuccess`). -/
theorem C6_extract_fallback (o : HttpOutcome) :
    extract_info_from_question o = (extractSuccess o).getD emptyTriple := by
  simp only [extract_info_from_question, extractSuccess]
  repeat' (first | rfl | split)

theorem C9_preserves_input_order_witness :
    (process_domains ["a.com", "b.com"] (.exn "down")
        (fun d => .exn d))[1]? =
      some (query_perplexity "b.com" (.str "") (.str "") (.str "")
        (.exn "b.com")) :=
  C9_preserves_input_order ["a.com", "b.com"] (.exn "down")
    (fun d => .exn d) 1 "b.com" rfl

/-- A possible 200 reply whose message content carries a JSON `null` for
the `product` key. -/
def replyNullProduct : Json :=
  .obj [("choices", .arr [.obj [("message", .obj [("content",
    .str "\x7b\"product\": null, \"origin\": \"FR\", \"destination\": \"DE\"\x7d")])]])]

/-- C7 (code bug): the claim — and the function's own `Dict[str, str]`
return annotation — says every field of the extracted triple is a string
and never null, but `extracted_data.get("product", "")` returns the stored
value when the key is present, so an upstream reply whose content is
`\x7b"product": null, ...\x7d` makes `extract_info_from_question` return a
triple whose `product` field is JSON `null` (Python `None`), while the
other fields stay strings. -/
theorem C7_null_product_field :
    lookupJ (extract_info_from_question (.resp 200 replyNullProduct "ok"))
        "product" = some Json.null ∧
    lookupJ (extract_info_from_question (.resp 200 replyNullProduct "ok"))
        "origin" = some (Json.str "FR") :=
  ⟨rfl, rfl⟩

/-- A success entry whose content is the valid JSON list `[1]`, an element
of which is not an object. -/
def entryListOfInts : Json :=
  .obj [("domain", .str "a.com"),
    ("response", .obj [("choices", .arr [.obj [("message", .obj
      [("content", .str "[1]")])]])])]

/-- A success entry whose content field holds the JSON number `7` instead
of a string. -/
def entryNumContent : Json :=
  .obj [("domain", .str "a.com"),
    ("response", .obj [("choices", .arr [.obj [("message", .obj
      [("content", .num 7)])]])])]

/-- A success entry whose content is the valid JSON list `["abc"]` whose
single element is a string, not an object. -/
def entryListOfStrs : Json :=
  .obj [("domain", .str "a.com"),
    ("response", .obj [("choices", .arr [.obj [("message", .obj
      [("content", .str "[\"abc\"]")])]])])]

/-- C3 counterexample: `reformat_results` is not exception-free on
arbitrary per-domain content. A success result whose content is the valid
JSON list `[1]` raises `TypeError` at `cert['domain'] = domain` (only
`json.JSONDecodeError` is caught), and a content field holding the number
`7` raises `TypeError` inside `json.loads`; in both cases the function
raises instead of returning a sequence. -/
theorem C3_raises_counterexample :
    reformat_results [entryListOfInts] =
      .error "TypeError: cert does not support item assignment" ∧
    reformat_results [entryNumContent] =
      .error "TypeError: json.loads argument is not a string" :=
  ⟨rfl, rfl⟩

/-- C3 amended: `reformat_results` never raises and returns a flat
(possibly empty) sequence of records provided each entry is well-shaped
(`entryOk`): the entry is a dict, the response navigation reaches the
content without raising, a truthy content is a string, and a content that
parses to a JSON list contains only objects. Without these conditions it
can raise (see the counterexample). -/
theorem C3_no_raise_when_wellshaped (results : List Json)
    (h : results.all entryOk = true) :
    ∃ out, reformat_results results = .ok out :=
  ⟨_, reformat_results_ok_of_entryOk results h⟩

/-- A well-shaped success entry carrying one certification record. -/
def entryOneCert : Json :=
  .obj [("domain", .str "eur-lex.europa.eu"),
    ("response", .obj [("choices", .arr [.obj [("message", .obj
      [("content", .str "[\x7b\"certificate_name\":\"CE\"\x7d]")])]])])]

/-- A failure entry, as produced by `query_perplexity` on an exception. -/
def entryFailure : Json :=
  .obj [("domain", .str "b.com"), ("product", .str ""),
    ("origin", .str ""), ("destination", .str ""),
    ("error", .str "Request failed"), ("details", .str "boom")]

theorem C3_no_raise_when_wellshaped_witness :
    ∃ out, reformat_results [entryOneCert, entryFailure] = .ok out :=
  C3_no_raise_when_wellshaped [entryOneCert, entryFailure] rfl

/-- C4 counterexample: a Success whose content parses to the JSON list
`["abc"]` does not turn its element into a certification record — the code
raises `TypeError` at `cert['domain'] = domain` instead of producing
records, so the claim's description of the list case fails for lists with
non-object elements. -/
theorem C4_list_case_counterexample :
    reformat_results [entryListOfStrs] =
      .error "TypeError: cert does not support item assignment" :=
  rfl

/-- C4 amended: provided every entry is well-shaped (`entryOk`; in
particular every content that parses to a JSON list contains only
objects), `reformat_results` returns exactly the concatenation, in
encounter order, of the per-entry records described by the spec
(`specEntryRecords`): each element of a parsed list becomes one record
tagged with the result's source domain; a parsed object (with or without
an `error` key), any other JSON shape, a parse failure, and every failure
entry contribute zero records. -/
theorem C4_normalizer_case_analysis (results : List Json)
    (h : results.all entryOk = true) :
    reformat_results results = .ok ((results.map specEntryRecords).flatten) :=
  reformat_results_ok_of_entryOk results h

/-- A success entry whose content is an error object. -/
def entryErrorObj : Json :=
  .obj [("domain", .str "a.com"),
    ("response", .obj [("choices", .arr [.obj [("message", .obj
      [("content", .str "\x7b\"error\":\"no data\"\x7d")])]])])]

/-- A success entry with two certification records. -/
def entryTwoCerts : Json :=
  .obj [("domain", .str "c.com"),
    ("response", .obj [("choices", .arr [.obj [("message", .obj
      [("content", .str "[\x7b\"a\":1\x7d,\x7b\"b\":2\x7d]")])]])])]

/-- A success entry whose content is not valid JSON. -/
def entryNotJson : Json :=
  .obj [("domain", .str "d.com"),
    ("response", .obj [("choices", .arr [.obj [("message", .obj
      [("content", .str "Sorry, I cannot help.")])]])])]

theorem C4_normalizer_case_analysis_witness :
    reformat_results [entryErrorObj, entryTwoCerts, entryNotJson, entryFailure] =
      .ok [.obj [("a", .num 1), ("domain", .str "c.com")],
           .obj [("b", .num 2), ("domain", .str "c.com")]] :=
  (C4_normalizer_case_analysis
    [entryErrorObj, entryTwoCerts, entryNotJson, entryFailure] rfl).trans rfl

theorem entryOk_of_parts (fields : List (String × Json)) (s : String)
    (certs : List Json) (hnav : navContentR fields = .ok (.str s))
    (hparse : json_loads s.toList = some (.arr certs))
    (hobj : certs.all Json.isObj = true) :
    entryOk (.obj fields) = true := by
  have hne : s.toList ≠ [] := by
    intro hh
    rw [hh, json_loads_nil] at hparse
    exact Option.noConfusion hparse
  have ht : (Json.str s).truthy = true := by
    simp only [Json.truthy]
    cases hsl : s.toList with
    | nil => exact absurd hsl hne
    | cons a l => rfl
  have hparse2 : json_loads s.data = some (.arr certs) := hparse
  simp [entryOk, hnav, ht, hparse, hparse2, hobj]

theorem specEntryRecords_of_parts (fields : List (String × Json)) (s : String)
    (certs : List Json) (hnav : navContentR fields = .ok (.str s))
    (hparse : json_loads s.toList = some (.arr certs)) :
    specEntryRecords (.obj fields) =
      certs.map (tagDomain ((lookupJ fields "domain").getD .null)) := by
  simp only [specEntryRecords, hnav, hparse]

/-- C10: when `reformat_results` processes a success entry whose content
parses to a JSON list of objects, it sets each object's `domain` key to
the entry's source domain — overwriting any upstream-supplied `domain`
value in place — and leaves every other key-value pair unchanged: the
tagged object maps `domain` to the source domain, agrees with the
original on every other key, and its key sequence is exactly the original
one (when `domain` was already present) or the original one with `domain`
appended (when it was not); no other field is added, removed or
modified. -/
theorem C10_domain_tag_frame (fields : List (String × Json)) (d : Json)
    (s : String) (certs : List Json)
    (hdom : lookupJ fields "domain" = some d)
    (hnav : navContentR fields = .ok (.str s))
    (hparse : json_loads s.toList = some (.arr certs))
    (hobj : certs.all Json.isObj = true) :
    reformat_results [.obj fields] = .ok (certs.map (tagDomain d)) ∧
    ∀ cf, Json.obj cf ∈ certs →
      lookupJ (setKey cf "domain" d) "domain" = some d ∧
      (∀ k, k ≠ "domain" → lookupJ (setKey cf "domain" d) k = lookupJ cf k) ∧
      keysOf (setKey cf "domain" d) =
        (if (lookupJ cf "domain").isSome then keysOf cf
         else keysOf cf ++ ["domain"]) := by
  constructor
  · have hok : entryOk (.obj fields) = true :=
      entryOk_of_parts fields s certs hnav hparse hobj
    have h1 := reformat_results_ok_of_entryOk [.obj fields] (by simp [hok])
    rw [h1]
    simp [specEntryRecords_of_parts fields s certs hnav hparse, hdom]
  · intro cf _hmem
    exact ⟨lookupJ_setKey_self cf "domain" d,
      fun k hk => lookupJ_setKey_other cf "domain" k d hk,
      keysOf_setKey cf "domain" d⟩

/-- The fields of a success entry whose single record already carries an
upstream-supplied `domain` value. -/
def overwriteFields : List (String × Json) :=
  [("domain", .str "a.com"),
   ("response", .obj [("choices", .arr [.obj [("message", .obj
     [("content", .str "[\x7b\"x\":1,\"domain\":\"model.said\"\x7d]")])]])])]

theorem C10_domain_tag_frame_witness :
    reformat_results [.obj overwriteFields] =
      .ok [.obj [("x", .num 1), ("domain", .str "a.com")]] :=
  ((C10_domain_tag_frame overwriteFields (.str "a.com")
    "[\x7b\"x\":1,\"domain\":\"model.said\"\x7d]"
    [.obj [("x", .num 1), ("domain", .str "model.said")]]
    rfl rfl rfl rfl).1).trans rfl
